import Mathlib

/-
Verification of the deskme coworking-space booking repository.

The embedding below translates the booking lifecycle code into Lean:

* `BookingData`               — the client-held draft (BookingContext.tsx, interface BookingData)
* `BookingRow`                — a persisted row of the `bookings` table (supabase schema, AdminDashboard interface Booking)
* `SessionStorage`            — the two sessionStorage keys the code uses:
                                'expectedConfirmationCode' and 'currentBookingId'
* `finalizeBooking`           — BookingContext.tsx, the finalizeBooking exported as confirmBooking
                                (fetch by id, status check, dual-source code check, update, session cleanup,
                                with the whole try-block caught and rethrown as a generic failure)
* `submitBookingForConfirmation`, `generateConfirmationCode`, `verifyConfirmationCode`
                              — BookingContext.tsx
* `saveBookingToDatabase`     — BookingPage (ConfirmationPage.tsx, second document)
* `handleConfirmBooking`, `handleRejectBooking`
                              — AdminDashboard (unnamed/part_000)
* `durations`, `calculatePrice` — BookingPage

The remote record store is modelled as a list of rows; `.eq('id', x)` filters model as
predicate tests on the `id` field.  `Math.random()` is modelled as an explicit rational
argument `r` with `0 ≤ r < 1`.  Webhook calls are fire-and-forget in the source (failures
swallowed) and have no effect on the store or session, so they do not appear in the state.
-/

/-- The draft booking held in client memory (interface BookingData). -/
structure BookingData where
  workspaceType : String
  date : String
  timeSlot : String
  duration : String
  customerName : String
  customerEmail : String
  customerPhone : String
  customerWhatsapp : String
  totalPrice : ℚ
deriving DecidableEq

/-- A persisted row of the `bookings` table (supabase schema in unnamed/part_001 and
the Booking interface in the admin dashboard).  `status` is kept as a string, as the
code compares it with string literals. -/
structure BookingRow where
  id : String
  workspace_type : String
  date : String
  time_slot : String
  duration : String
  customer_name : String
  customer_email : String
  customer_phone : String
  customer_whatsapp : String
  total_price : ℚ
  status : String
  confirmation_code : Option String
  user_id : Option String
  created_at : String
  updated_at : String
deriving DecidableEq

/-- The two sessionStorage keys used by the booking flow:
'expectedConfirmationCode' (set by submitBookingForConfirmation) and
'currentBookingId' (set by saveBookingToDatabase). `none` models an absent key. -/
structure SessionStorage where
  expectedConfirmationCode : Option String
  currentBookingId : Option String
deriving DecidableEq

/-- The distinct throw sites of the booking flow.  The source throws `Error` values with
messages; each constructor stands for one message: `noBookingData` for
'No booking data available', `noBookingId` for 'No booking ID found', `bookingNotFound`
for a failed fetch or 'Booking not found', `invalidState s` for
'Booking is already (s) and cannot be modified', `invalidCode` for
'Invalid confirmation code', and `saveFailed` for the generic
'Failed to save booking. Please try again.' rethrown by the catch block. -/
inductive BookingError where
  | noBookingData
  | noBookingId
  | bookingNotFound
  | invalidState (status : String)
  | invalidCode
  | saveFailed
deriving DecidableEq

/-- Result of one finalizeBooking call: the value returned or error thrown, together
with the database rows and session storage after the call. -/
structure FinalizeResult where
  result : Except BookingError BookingRow
  db : List BookingRow
  session : SessionStorage

/-- supabase .select(star).eq('id', bookingId).single(): the first row with the given id. -/
def fetchById (db : List BookingRow) (bookingId : String) : Option BookingRow :=
  db.find? (fun row => row.id == bookingId)

/-- supabase .update(patch).eq('id', bookingId): applies the patch to every row whose
id matches; no other precondition is part of the query. -/
def updateWhereId (db : List BookingRow) (bookingId : String)
    (patch : BookingRow → BookingRow) : List BookingRow :=
  db.map (fun row => if row.id == bookingId then patch row else row)

/-- JavaScript truthiness of the nullable string column, as used by
`if (currentBooking.confirmation_code)`: null is falsy and the empty string is falsy. -/
def strTruthy : Option String → Bool
  | none => false
  | some s => s != ""

/-- BookingContext.tsx verifyConfirmationCode: compares the entered code with
sessionStorage.getItem('expectedConfirmationCode'); when the key is absent,
getItem returns null and a string is never strictly equal to null. -/
def verifyConfirmationCode (session : SessionStorage) (enteredCode : String) : Bool :=
  match session.expectedConfirmationCode with
  | some expectedCode => enteredCode == expectedCode
  | none => false

/-- The patch object of the mutating update in finalizeBooking:
\x7b status: 'confirmed', confirmation_code: confirmationCode, updated_at: now \x7d. -/
def confirmPatch (confirmationCode now : String) (row : BookingRow) : BookingRow :=
  { row with status := "confirmed", confirmation_code := some confirmationCode,
             updated_at := now }

/-- Outcome of the check phase (steps 1 to 3) of finalizeBooking: either a throw,
or permission to run the update with the resolved booking id. -/
inductive CheckOutcome where
  | reject (e : BookingError)
  | proceed (bookingId : String)
deriving DecidableEq

/-- Steps 1 to 3 of finalizeBooking (BookingContext.tsx): guard on bookingData,
read 'currentBookingId', fetch the row, require status 'pending', then verify the
entered code against the persisted confirmation_code when that column is truthy,
and against the session-held expected code otherwise. -/
def finalizeChecks (bookingData : Option BookingData) (session : SessionStorage)
    (db : List BookingRow) (confirmationCode : String) : CheckOutcome :=
  match bookingData with
  | none => .reject .noBookingData
  | some _ =>
    match session.currentBookingId with
    | none => .reject .noBookingId
    | some bookingId =>
      match fetchById db bookingId with
      | none => .reject .bookingNotFound
      | some currentBooking =>
        if currentBooking.status ≠ "pending" then
          .reject (.invalidState currentBooking.status)
        else if strTruthy currentBooking.confirmation_code then
          if currentBooking.confirmation_code ≠ some confirmationCode then
            .reject .invalidCode
          else
            .proceed bookingId
        else if !verifyConfirmationCode session confirmationCode then
          .reject .invalidCode
        else
          .proceed bookingId

/-- Step 4 of finalizeBooking: the update keyed by id (with no condition on the
previous status), followed by .select().single() returning the updated row. -/
def finalizeCommit (db : List BookingRow) (bookingId confirmationCode now : String) :
    List BookingRow × Except BookingError BookingRow :=
  let newDb := updateWhereId db bookingId (confirmPatch confirmationCode now)
  match fetchById newDb bookingId with
  | none => (newDb, .error .bookingNotFound)
  | some updated => (newDb, .ok updated)

/-- finalizeBooking before its outer catch: checks, then commit, then (on success)
removal of both sessionStorage keys; the webhook in between ignores failures and
does not touch the store or the session. -/
def finalizeBookingCore (bookingData : Option BookingData) (session : SessionStorage)
    (db : List BookingRow) (confirmationCode now : String) : FinalizeResult :=
  match finalizeChecks bookingData session db confirmationCode with
  | .reject e => ⟨.error e, db, session⟩
  | .proceed bookingId =>
    match (finalizeCommit db bookingId confirmationCode now).2 with
    | .error e => ⟨.error e, (finalizeCommit db bookingId confirmationCode now).1, session⟩
    | .ok updated =>
      ⟨.ok updated, (finalizeCommit db bookingId confirmationCode now).1, ⟨none, none⟩⟩

/-- The full finalizeBooking, exported from BookingContext as confirmBooking: any error
thrown inside the try block (everything after the bookingData and bookingId guards) is
caught and rethrown as the generic 'Failed to save booking. Please try again.'. -/
def finalizeBooking (bookingData : Option BookingData) (session : SessionStorage)
    (db : List BookingRow) (confirmationCode now : String) : FinalizeResult :=
  let r := finalizeBookingCore bookingData session db confirmationCode now
  match r.result with
  | .error .noBookingData => r
  | .error .noBookingId => r
  | .error _ => { r with result := .error .saveFailed }
  | .ok _ => r

/-- Math.floor(100000 + Math.random() * 900000), with Math.random() modelled as the
argument `r`. -/
def generateCodeInt (r : ℚ) : ℤ :=
  ⌊(100000 : ℚ) + r * 900000⌋

/-- BookingContext.tsx generateConfirmationCode:
Math.floor(100000 + Math.random() * 900000).toString().  The same expression is used
by the admin dashboard's handleConfirmBooking. -/
def generateConfirmationCode (r : ℚ) : String :=
  toString (generateCodeInt r)

/-- BookingContext.tsx sendWhatsAppCode: generates a code, logs and simulates a delay,
and returns the code; the mock send cannot fail. -/
def sendWhatsAppCode (r : ℚ) : String :=
  generateConfirmationCode r

/-- BookingContext.tsx submitBookingForConfirmation: guards on bookingData, obtains a
code from sendWhatsAppCode, stores it under 'expectedConfirmationCode', and returns it. -/
def submitBookingForConfirmation (bookingData : Option BookingData)
    (session : SessionStorage) (r : ℚ) : Except BookingError (String × SessionStorage) :=
  match bookingData with
  | none => .error .noBookingData
  | some _ =>
    .ok (sendWhatsAppCode r,
         { session with expectedConfirmationCode := some (sendWhatsAppCode r) })

/-- The row inserted by BookingPage saveBookingToDatabase.  The insert object carries
the draft fields and status 'pending' and omits confirmation_code, user_id and the
timestamps, which take their column defaults (null, null, and the insert time). -/
def newBookingRow (bookingData : BookingData) (newId now : String) : BookingRow :=
  { id := newId
    workspace_type := bookingData.workspaceType
    date := bookingData.date
    time_slot := bookingData.timeSlot
    duration := bookingData.duration
    customer_name := bookingData.customerName
    customer_email := bookingData.customerEmail
    customer_phone := bookingData.customerPhone
    customer_whatsapp := bookingData.customerWhatsapp
    total_price := bookingData.totalPrice
    status := "pending"
    confirmation_code := none
    user_id := none
    created_at := now
    updated_at := now }

/-- BookingPage saveBookingToDatabase: inserts one pending row and stores the
server-assigned id under sessionStorage 'currentBookingId'. -/
def saveBookingToDatabase (db : List BookingRow) (session : SessionStorage)
    (bookingData : BookingData) (newId now : String) :
    List BookingRow × SessionStorage :=
  (db ++ [newBookingRow bookingData newId now],
   { session with currentBookingId := some newId })

/-- AdminDashboard handleConfirmBooking: generates a fresh code, fetches the booking
(for the webhook payload), sends the webhook carrying the code (failures swallowed),
refreshes the view and alerts.  The function contains no database write: it returns
the store unchanged together with the code it dispatched (none when the fetch threw). -/
def handleConfirmBooking (db : List BookingRow) (bookingId : String) (r : ℚ) :
    List BookingRow × Option String :=
  let confirmationCode := generateConfirmationCode r
  match fetchById db bookingId with
  | none => (db, none)
  | some _ => (db, some confirmationCode)

/-- The patch object of handleRejectBooking: \x7b status: 'rejected' \x7d. -/
def rejectPatch (row : BookingRow) : BookingRow :=
  { row with status := "rejected" }

/-- AdminDashboard handleRejectBooking (the branch where the admin accepts the
confirm() dialog): .update(\x7b status: 'rejected' \x7d).eq('id', bookingId), with no
condition on the previous status, followed by a fire-and-forget webhook. -/
def handleRejectBooking (db : List BookingRow) (bookingId : String) : List BookingRow :=
  updateWhereId db bookingId rejectPatch

/-- A workspace type row as fetched by BookingPage (interface WorkspaceType). -/
structure WorkspaceType where
  id : String
  name : String
  description : String
  price : ℚ
  price_unit : String
  features : List String
  is_active : Bool
deriving DecidableEq

/-- One entry of the durations array of BookingPage. -/
structure DurationOption where
  value : String
  label : String
  multiplier : ℚ
deriving DecidableEq

/-- The durations array of BookingPage. -/
def durations : List DurationOption :=
  [⟨"1-hour", "1 Hour", 1⟩,
   ⟨"2-hours", "2 Hours", 2⟩,
   ⟨"4-hours", "4 Hours", 4⟩,
   ⟨"1-day", "1 Day", 1⟩,
   ⟨"1-week", "1 Week", 7⟩,
   ⟨"1-month", "1 Month", 30⟩]

/-- BookingPage calculatePrice: find the workspace by name and the duration by value;
if either is missing return 0, else unit price times multiplier. -/
def calculatePrice (workspaceTypes : List WorkspaceType)
    (workspaceType duration : String) : ℚ :=
  match workspaceTypes.find? (fun w => w.name == workspaceType),
        durations.find? (fun d => d.value == duration) with
  | some w, some d => w.price * d.multiplier
  | _, _ => 0

/-- Tests whether a finalizeBooking result is the invalid-state error. -/
def isInvalidStateResult : Except BookingError BookingRow → Bool
  | .error (.invalidState _) => true
  | _ => false

/-- Sample draft used by concrete witnesses (the scenario of spec section 8). -/
def sampleBooking : BookingData :=
  ⟨"Hot Desk", "2026-01-01", "9:00 AM", "1-hour", "Ada", "ada@example.com",
   "+15551234567", "+15551234567", 50⟩

/-- A pending row with no persisted confirmation code, as created by
saveBookingToDatabase. -/
def pendingRow : BookingRow :=
  newBookingRow sampleBooking "b1" "t0"

/-- pendingRow after a successful customer confirmation at time t1 with code 482913. -/
def confirmedRowT1 : BookingRow :=
  confirmPatch "482913" "t1" pendingRow

/-- pendingRow after a successful customer confirmation at time t2 with code 482913. -/
def confirmedRowT2 : BookingRow :=
  confirmPatch "482913" "t2" pendingRow

/-- An already-confirmed row carrying a persisted confirmation code. -/
def confirmedRow : BookingRow :=
  { pendingRow with status := "confirmed", confirmation_code := some "482913" }

/-- A pending row whose persisted confirmation_code is the empty string, which
JavaScript truthiness treats as absent. -/
def emptyCodeRow : BookingRow :=
  { pendingRow with confirmation_code := some "" }

/-- A cancelled row, exercising the terminal statuses other than 'rejected'. -/
def cancelledRow : BookingRow :=
  { pendingRow with status := "cancelled" }

/-- A workspace row used by concrete witnesses. -/
def sampleWorkspace : WorkspaceType :=
  ⟨"w1", "Hot Desk", "A desk", 50, "hour", [], true⟩

/-- Finding by id after an id-preserving update by the same id yields the patched row. -/
lemma fetchById_updateWhereId (db : List BookingRow) (bookingId : String)
    (patch : BookingRow → BookingRow) (hpatch : ∀ x, (patch x).id = x.id)
    (row : BookingRow) (h : fetchById db bookingId = some row) :
    fetchById (updateWhereId db bookingId patch) bookingId = some (patch row) := by
  have h0 : List.find? (fun r : BookingRow => r.id == bookingId) db = some row := h
  have hrow : (row.id == bookingId) = true := by simpa using List.find?_some h0
  have hpred : ((fun r : BookingRow => r.id == bookingId) ∘
      (fun r : BookingRow => if r.id == bookingId then patch r else r)) =
      (fun r : BookingRow => r.id == bookingId) := by
    funext r
    by_cases hr : r.id = bookingId
    · simp [hr, hpatch]
    · simp [hr]
  unfold fetchById updateWhereId
  rw [List.find?_map, hpred]
  unfold fetchById at h
  rw [h]
  have hid : row.id = bookingId := by simpa using hrow
  simp [hid]

/-- Step 2 of finalizeBooking: a fetched record in any status other than 'pending'
is rejected with the invalid-state error carrying that status, before any write. -/
lemma core_invalid_state (b : BookingData) (s : SessionStorage) (db : List BookingRow)
    (code now bookingId : String) (row : BookingRow)
    (hid : s.currentBookingId = some bookingId)
    (hfetch : fetchById db bookingId = some row)
    (hstatus : row.status ≠ "pending") :
    finalizeBookingCore (some b) s db code now =
      ⟨.error (.invalidState row.status), db, s⟩ := by
  simp [finalizeBookingCore, finalizeChecks, hid, hfetch, hstatus]

/-- Step 3 of finalizeBooking: a code mismatch (against the truthy persisted code, or
against the session code when the persisted one is null or empty) is rejected with the
invalid-code error, before any write. -/
lemma core_invalid_code (b : BookingData) (s : SessionStorage) (db : List BookingRow)
    (code now bookingId : String) (row : BookingRow)
    (hid : s.currentBookingId = some bookingId)
    (hfetch : fetchById db bookingId = some row)
    (hstatus : row.status = "pending")
    (hmismatch : (strTruthy row.confirmation_code = true ∧
                    row.confirmation_code ≠ some code) ∨
                 (strTruthy row.confirmation_code = false ∧
                    verifyConfirmationCode s code = false)) :
    finalizeBookingCore (some b) s db code now = ⟨.error .invalidCode, db, s⟩ := by
  rcases hmismatch with ⟨ht, hc⟩ | ⟨ht, hv⟩
  · simp [finalizeBookingCore, finalizeChecks, hid, hfetch, hstatus, ht, hc]
  · simp [finalizeBookingCore, finalizeChecks, hid, hfetch, hstatus, ht, hv]

/-- Step 4 of finalizeBooking: with a pending record and a matching code, the record is
patched to confirmed, the store holds the patched row, and both session keys are removed. -/
lemma core_success (b : BookingData) (s : SessionStorage) (db : List BookingRow)
    (code now bookingId : String) (row : BookingRow)
    (hid : s.currentBookingId = some bookingId)
    (hfetch : fetchById db bookingId = some row)
    (hstatus : row.status = "pending")
    (hmatch : (strTruthy row.confirmation_code = true ∧
                 row.confirmation_code = some code) ∨
              (strTruthy row.confirmation_code = false ∧
                 verifyConfirmationCode s code = true)) :
    finalizeBookingCore (some b) s db code now =
      ⟨.ok (confirmPatch code now row),
       updateWhereId db bookingId (confirmPatch code now), ⟨none, none⟩⟩ := by
  have hchecks : finalizeChecks (some b) s db code = .proceed bookingId := by
    rcases hmatch with ⟨ht, hc⟩ | ⟨ht, hv⟩
    · have ht' : strTruthy row.confirmation_code = true := ht
      simp [finalizeChecks, hid, hfetch, hstatus, hc] at ht' ⊢
      simp [ht']
    · simp [finalizeChecks, hid, hfetch, hstatus, ht, hv]
  have hfetch2 :
      fetchById (updateWhereId db bookingId (confirmPatch code now)) bookingId =
        some (confirmPatch code now row) :=
    fetchById_updateWhereId db bookingId (confirmPatch code now) (fun _ => rfl) row hfetch
  simp [finalizeBookingCore, hchecks, finalizeCommit, hfetch2]

/-- A successful finalizeBooking run removed both session keys and required draft data. -/
lemma core_ok_clears_session (bookingData : Option BookingData) (s : SessionStorage)
    (db : List BookingRow) (code now : String) (row : BookingRow)
    (db' : List BookingRow) (s' : SessionStorage)
    (h : finalizeBookingCore bookingData s db code now = ⟨.ok row, db', s'⟩) :
    s' = ⟨none, none⟩ ∧ ∃ b, bookingData = some b := by
  cases bookingData with
  | none => simp [finalizeBookingCore, finalizeChecks] at h
  | some b =>
    refine ⟨?_, b, rfl⟩
    unfold finalizeBookingCore at h
    split at h
    · simp at h
    · split at h
      · simp at h
      · have hs := congrArg FinalizeResult.session h
        simpa using hs.symm

/-- The outer catch of finalizeBooking: errors raised inside the try block surface as
the generic save failure. -/
lemma finalizeBooking_saveFailed (bookingData : Option BookingData) (s : SessionStorage)
    (db : List BookingRow) (code now : String) (e : BookingError)
    (db' : List BookingRow) (s' : SessionStorage)
    (hcore : finalizeBookingCore bookingData s db code now = ⟨.error e, db', s'⟩)
    (h1 : e ≠ .noBookingData) (h2 : e ≠ .noBookingId) :
    finalizeBooking bookingData s db code now = ⟨.error .saveFailed, db', s'⟩ := by
  cases e <;> simp_all [finalizeBooking]

/-- Successful runs pass through the catch unchanged. -/
lemma finalizeBooking_ok (bookingData : Option BookingData) (s : SessionStorage)
    (db : List BookingRow) (code now : String) (row : BookingRow)
    (db' : List BookingRow) (s' : SessionStorage)
    (hcore : finalizeBookingCore bookingData s db code now = ⟨.ok row, db', s'⟩) :
    finalizeBooking bookingData s db code now = ⟨.ok row, db', s'⟩ := by
  simp [finalizeBooking, hcore]

/-- C7: for every draft booking input, saveBookingToDatabase (the createBooking of the
spec) inserts exactly one new row, and that row has status 'pending' and a null
confirmation_code; it also stores the new id under sessionStorage 'currentBookingId'. -/
theorem claim7_createBooking_pending_null (db : List BookingRow) (session : SessionStorage)
    (bookingData : BookingData) (newId now : String) :
    (saveBookingToDatabase db session bookingData newId now).1 =
      db ++ [newBookingRow bookingData newId now] ∧
    (newBookingRow bookingData newId now).status = "pending" ∧
    (newBookingRow bookingData newId now).confirmation_code = none ∧
    (saveBookingToDatabase db session bookingData newId now).1.length = db.length + 1 ∧
    (saveBookingToDatabase db session bookingData newId now).2 =
      { session with currentBookingId := some newId } := by
  refine ⟨rfl, rfl, rfl, ?_, rfl⟩
  simp [saveBookingToDatabase]

/-- C9: when the fetched pending record has a null confirmation_code and the session
holds no expected code, every entered code is rejected with the invalid-code error
(surfaced by the catch as the generic save failure) and neither the store nor the
session changes. -/
theorem claim9_null_code_no_session (b : BookingData) (s : SessionStorage)
    (db : List BookingRow) (entered now bookingId : String) (row : BookingRow)
    (hid : s.currentBookingId = some bookingId)
    (hexp : s.expectedConfirmationCode = none)
    (hfetch : fetchById db bookingId = some row)
    (hstatus : row.status = "pending")
    (hcode : row.confirmation_code = none) :
    finalizeBookingCore (some b) s db entered now = ⟨.error .invalidCode, db, s⟩ ∧
    finalizeBooking (some b) s db entered now = ⟨.error .saveFailed, db, s⟩ := by
  have hcore := core_invalid_code b s db entered now bookingId row hid hfetch hstatus
    (Or.inr ⟨by simp [strTruthy, hcode], by simp [verifyConfirmationCode, hexp]⟩)
  exact ⟨hcore,
    finalizeBooking_saveFailed _ _ _ _ _ _ _ _ hcore (by decide) (by decide)⟩

/-- Witness for C9: a pending record without a stored code, an empty session slot,
and entered code 123456. -/
theorem claim9_witness :
    finalizeBookingCore (some sampleBooking) ⟨none, some "b1"⟩ [pendingRow] "123456" "t1"
      = ⟨.error .invalidCode, [pendingRow], ⟨none, some "b1"⟩⟩ :=
  (claim9_null_code_no_session sampleBooking ⟨none, some "b1"⟩ [pendingRow] "123456" "t1"
    "b1" pendingRow rfl rfl rfl rfl rfl).1

/-- C10: the 1-day entry of the durations array carries multiplier 1 exactly like the
1-hour entry, so calculatePrice gives every workspace the same total for a 1-day and a
1-hour booking; and calculatePrice returns 0 whenever the selected workspace type or
the selected duration matches no known entry. -/
theorem claim10_price_multipliers :
    ((durations.find? (fun d => d.value == "1-day")).map DurationOption.multiplier =
        some 1 ∧
     (durations.find? (fun d => d.value == "1-hour")).map DurationOption.multiplier =
        some 1) ∧
    (∀ (workspaceTypes : List WorkspaceType) (t : String),
       calculatePrice workspaceTypes t "1-day" = calculatePrice workspaceTypes t "1-hour") ∧
    (∀ (workspaceTypes : List WorkspaceType) (t d : String),
       workspaceTypes.find? (fun w => w.name == t) = none ∨
         durations.find? (fun x => x.value == d) = none →
       calculatePrice workspaceTypes t d = 0) := by
  refine ⟨⟨rfl, rfl⟩, ?_, ?_⟩
  · intro wts t
    unfold calculatePrice
    have h1 : durations.find? (fun d => d.value == "1-day") =
        some ⟨"1-day", "1 Day", 1⟩ := rfl
    have h2 : durations.find? (fun d => d.value == "1-hour") =
        some ⟨"1-hour", "1 Hour", 1⟩ := rfl
    rw [h1, h2]
    cases wts.find? (fun w => w.name == t) <;> rfl
  · intro wts t d h
    unfold calculatePrice
    rcases h with h | h
    · rw [h]
    · rw [h]
      cases wts.find? (fun w => w.name == t) <;> rfl

/-- Witness for C10: a concrete workspace list priced equally for 1-day and 1-hour,
and a lookup miss yielding 0. -/
theorem claim10_witness :
    calculatePrice [sampleWorkspace] "Hot Desk" "1-day" =
      calculatePrice [sampleWorkspace] "Hot Desk" "1-hour" ∧
    calculatePrice [] "Hot Desk" "2-hours" = 0 :=
  ⟨claim10_price_multipliers.2.1 [sampleWorkspace] "Hot Desk",
   claim10_price_multipliers.2.2 [] "Hot Desk" "2-hours" (Or.inl rfl)⟩

/-- C8: submitBookingForConfirmation draws Math.random() as r in [0,1); the generated
code Math.floor(100000 + r * 900000) lies in [100000, 999999] (a 6-digit number), each
code value is hit exactly on a half-open r-interval of length 1/900000 (the uniform
distribution of the floor of a uniform draw), the code is stored under the session key
'expectedConfirmationCode', and the very same code is returned to the caller. -/
theorem claim8_code_generation (b : BookingData) (s : SessionStorage) (r : ℚ)
    (h0 : 0 ≤ r) (h1 : r < 1) :
    submitBookingForConfirmation (some b) s r =
      .ok (generateConfirmationCode r,
           { s with expectedConfirmationCode := some (generateConfirmationCode r) }) ∧
    (100000 ≤ generateCodeInt r ∧ generateCodeInt r ≤ 999999) ∧
    (∀ k : ℤ, generateCodeInt r = k ↔
       ((k : ℚ) - 100000) / 900000 ≤ r ∧ r < (((k : ℚ) - 100000) + 1) / 900000) := by
  refine ⟨rfl, ⟨?_, ?_⟩, ?_⟩
  · have hle : ((100000 : ℤ) : ℚ) ≤ (100000 : ℚ) + r * 900000 := by
      push_cast
      nlinarith
    exact Int.le_floor.mpr hle
  · have hlt : (100000 : ℚ) + r * 900000 < ((1000000 : ℤ) : ℚ) := by
      push_cast
      nlinarith
    have := Int.floor_lt.mpr hlt
    unfold generateCodeInt
    omega
  · intro k
    unfold generateCodeInt
    rw [Int.floor_eq_iff]
    constructor
    · rintro ⟨ha, hb⟩
      constructor
      · rw [div_le_iff₀ (by norm_num : (0 : ℚ) < 900000)]
        linarith
      · rw [lt_div_iff₀ (by norm_num : (0 : ℚ) < 900000)]
        linarith
    · rintro ⟨ha, hb⟩
      rw [div_le_iff₀ (by norm_num : (0 : ℚ) < 900000)] at ha
      rw [lt_div_iff₀ (by norm_num : (0 : ℚ) < 900000)] at hb
      constructor
      · linarith
      · linarith

/-- Witness for C8 at r = 0: the generated code is stored and returned, and lies in
the 6-digit range. -/
theorem claim8_witness :
    submitBookingForConfirmation (some sampleBooking) ⟨none, none⟩ 0 =
      .ok (generateConfirmationCode 0, ⟨some (generateConfirmationCode 0), none⟩) ∧
    100000 ≤ generateCodeInt 0 ∧ generateCodeInt 0 ≤ 999999 :=
  (fun h => ⟨h.1, h.2.1.1, h.2.1.2⟩)
    (claim8_code_generation sampleBooking ⟨none, none⟩ 0 le_rfl (by norm_num))

/-- C1 (amended): whenever confirmBooking fetches a record whose status is not
'pending', the run stops with the invalid-state error carrying that status (rethrown
by the catch as the generic save failure) and neither the store nor the session is
touched; and after any successful confirmation the session keys are cleared, so a
sequential second call with the same code stops at the missing-booking-id guard — the
already-confirmed record again stays unchanged.  A second attempt surfaces the
invalid-state error only when its session still holds the booking id. -/
theorem claim1_invalid_state_rejection :
    (∀ (b : BookingData) (s : SessionStorage) (db : List BookingRow)
       (code now bookingId : String) (row : BookingRow),
       s.currentBookingId = some bookingId →
       fetchById db bookingId = some row →
       row.status ≠ "pending" →
       finalizeBookingCore (some b) s db code now =
         ⟨.error (.invalidState row.status), db, s⟩ ∧
       finalizeBooking (some b) s db code now = ⟨.error .saveFailed, db, s⟩) ∧
    (∀ (bookingData : Option BookingData) (s : SessionStorage) (db : List BookingRow)
       (code now now' : String) (row : BookingRow) (db' : List BookingRow)
       (s' : SessionStorage),
       finalizeBookingCore bookingData s db code now = ⟨.ok row, db', s'⟩ →
       finalizeBookingCore bookingData s' db' code now' =
         ⟨.error .noBookingId, db', s'⟩) := by
  constructor
  · intro b s db code now bookingId row hid hfetch hstatus
    have hcore := core_invalid_state b s db code now bookingId row hid hfetch hstatus
    exact ⟨hcore, finalizeBooking_saveFailed _ _ _ _ _ _ _ _ hcore (by simp) (by simp)⟩
  · intro bookingData s db code now now' row db' s' h
    obtain ⟨hs', b, hb⟩ := core_ok_clears_session bookingData s db code now row db' s' h
    subst hb
    subst hs'
    rfl

/-- Witness for C1: a fetch of an already-confirmed record is rejected with the
invalid-state error carrying 'confirmed', and a successful run followed by a second
call on its resulting state stops at the missing-booking-id guard. -/
theorem claim1_witness :
    finalizeBookingCore (some sampleBooking) ⟨some "482913", some "b1"⟩ [confirmedRow]
        "482913" "t1" =
      ⟨.error (.invalidState "confirmed"), [confirmedRow], ⟨some "482913", some "b1"⟩⟩ ∧
    finalizeBookingCore (some sampleBooking) ⟨none, none⟩ [confirmedRowT1] "482913" "t2" =
      ⟨.error .noBookingId, [confirmedRowT1], ⟨none, none⟩⟩ :=
  ⟨(claim1_invalid_state_rejection.1 sampleBooking ⟨some "482913", some "b1"⟩ [confirmedRow]
      "482913" "t1" "b1" confirmedRow rfl rfl (by decide)).1,
   claim1_invalid_state_rejection.2 (some sampleBooking) ⟨some "482913", some "b1"⟩
      [pendingRow] "482913" "t1" "t2" confirmedRowT1 [confirmedRowT1] ⟨none, none⟩ rfl⟩

/-- Counterexample to C1 as stated: after a first successful confirmation (which clears
both session keys), a literal second call with the same valid code on the now-confirmed
record fails with the missing-booking-id error, not with the invalid-state error the
claim promises; the record is nevertheless unchanged. -/
theorem claim1_counterexample :
    finalizeBookingCore (some sampleBooking) ⟨some "482913", some "b1"⟩ [pendingRow]
        "482913" "t1" =
      ⟨.ok confirmedRowT1, [confirmedRowT1], ⟨none, none⟩⟩ ∧
    finalizeBookingCore (some sampleBooking) ⟨none, none⟩ [confirmedRowT1] "482913" "t2" =
      ⟨.error .noBookingId, [confirmedRowT1], ⟨none, none⟩⟩ ∧
    isInvalidStateResult (finalizeBookingCore (some sampleBooking) ⟨none, none⟩
        [confirmedRowT1] "482913" "t2").result = false ∧
    (finalizeBooking (some sampleBooking) ⟨none, none⟩ [confirmedRowT1] "482913"
        "t2").result = .error .noBookingId :=
  ⟨rfl, rfl, rfl, rfl⟩

/-- C2 (amended): for a pending record, an entered code that does not match the code of
record as the implementation resolves it — the persisted confirmation_code when that
column is truthy (non-null and non-empty), otherwise the session-held expected code —
is rejected with the invalid-code error (surfaced by the catch as the generic save
failure); neither the store nor the session changes, so the record stays pending. -/
theorem claim2_invalid_code_rejection :
    ∀ (b : BookingData) (s : SessionStorage) (db : List BookingRow)
      (code now bookingId : String) (row : BookingRow),
      s.currentBookingId = some bookingId →
      fetchById db bookingId = some row →
      row.status = "pending" →
      ((strTruthy row.confirmation_code = true ∧ row.confirmation_code ≠ some code) ∨
       (strTruthy row.confirmation_code = false ∧ verifyConfirmationCode s code = false)) →
      finalizeBookingCore (some b) s db code now = ⟨.error .invalidCode, db, s⟩ ∧
      finalizeBooking (some b) s db code now = ⟨.error .saveFailed, db, s⟩ := by
  intro b s db code now bookingId row hid hfetch hstatus hmis
  have hcore := core_invalid_code b s db code now bookingId row hid hfetch hstatus hmis
  exact ⟨hcore, finalizeBooking_saveFailed _ _ _ _ _ _ _ _ hcore (by decide) (by decide)⟩

/-- Witness for C2: expected session code 482913, entered code 000000 (the scenario of
spec section 8) is rejected and the pending record is untouched. -/
theorem claim2_witness :
    finalizeBookingCore (some sampleBooking) ⟨some "482913", some "b1"⟩ [pendingRow]
        "000000" "t1" =
      ⟨.error .invalidCode, [pendingRow], ⟨some "482913", some "b1"⟩⟩ :=
  (claim2_invalid_code_rejection sampleBooking ⟨some "482913", some "b1"⟩ [pendingRow]
    "000000" "t1" "b1" pendingRow rfl rfl rfl (Or.inr ⟨rfl, by decide⟩)).1

/-- Counterexample to C2 as stated: a pending record whose persisted confirmation_code
is the non-null empty string.  The claim's code of record is that empty string, and the
entered code 123456 differs from it, so the claim demands the invalid-code error and an
unchanged pending record; the implementation treats the empty string as falsy, compares
against the session code 123456 instead, and confirms the booking. -/
theorem claim2_counterexample :
    emptyCodeRow.confirmation_code = some "" ∧
    emptyCodeRow.status = "pending" ∧
    finalizeBookingCore (some sampleBooking) ⟨some "123456", some "b1"⟩ [emptyCodeRow]
        "123456" "t1" =
      ⟨.ok (confirmPatch "123456" "t1" emptyCodeRow),
       [confirmPatch "123456" "t1" emptyCodeRow], ⟨none, none⟩⟩ ∧
    (confirmPatch "123456" "t1" emptyCodeRow).status = "confirmed" :=
  ⟨rfl, rfl, rfl, rfl⟩

/-- C3 (amended): for a pending record and an entered code matching the code of record
as the implementation resolves it — the persisted confirmation_code when truthy
(non-null and non-empty), otherwise the session-held expected code — confirmBooking
updates the record to status 'confirmed' with confirmation_code equal to the entered
code and updated_at set to the current time, clears both session keys, and returns the
updated record. -/
theorem claim3_confirmation_success :
    ∀ (b : BookingData) (s : SessionStorage) (db : List BookingRow)
      (entered now bookingId : String) (row : BookingRow),
      s.currentBookingId = some bookingId →
      fetchById db bookingId = some row →
      row.status = "pending" →
      ((strTruthy row.confirmation_code = true ∧ row.confirmation_code = some entered) ∨
       (strTruthy row.confirmation_code = false ∧
          verifyConfirmationCode s entered = true)) →
      finalizeBookingCore (some b) s db entered now =
        ⟨.ok (confirmPatch entered now row),
         updateWhereId db bookingId (confirmPatch entered now), ⟨none, none⟩⟩ ∧
      fetchById (updateWhereId db bookingId (confirmPatch entered now)) bookingId =
        some (confirmPatch entered now row) ∧
      (confirmPatch entered now row).status = "confirmed" ∧
      (confirmPatch entered now row).confirmation_code = some entered ∧
      (confirmPatch entered now row).updated_at = now ∧
      finalizeBooking (some b) s db entered now =
        ⟨.ok (confirmPatch entered now row),
         updateWhereId db bookingId (confirmPatch entered now), ⟨none, none⟩⟩ := by
  intro b s db entered now bookingId row hid hfetch hstatus hmatch
  have hcore := core_success b s db entered now bookingId row hid hfetch hstatus hmatch
  exact ⟨hcore,
    fetchById_updateWhereId db bookingId (confirmPatch entered now) (fun _ => rfl) row
      hfetch,
    rfl, rfl, rfl,
    finalizeBooking_ok _ _ _ _ _ _ _ _ hcore⟩

/-- Witness for C3: a pending record with no persisted code and the matching session
code 482913 is confirmed, the store holds the patched row, and both session keys are
cleared. -/
theorem claim3_witness :
    finalizeBookingCore (some sampleBooking) ⟨some "482913", some "b1"⟩ [pendingRow]
        "482913" "t1" =
      ⟨.ok (confirmPatch "482913" "t1" pendingRow),
       updateWhereId [pendingRow] "b1" (confirmPatch "482913" "t1"), ⟨none, none⟩⟩ :=
  (claim3_confirmation_success sampleBooking ⟨some "482913", some "b1"⟩ [pendingRow]
    "482913" "t1" "b1" pendingRow rfl rfl rfl (Or.inr ⟨rfl, by decide⟩)).1

/-- Counterexample to C3 as stated: a pending record whose persisted confirmation_code
is the non-null empty string, entered code equal to it (the empty string), and no
session code.  The claim's code of record is that persisted empty string and the entered
code matches it exactly, so the claim demands a successful confirmation; the
implementation treats the empty string as falsy, falls back to the absent session code,
and rejects with the invalid-code error, leaving the record pending. -/
theorem claim3_counterexample :
    emptyCodeRow.confirmation_code = some "" ∧
    finalizeBookingCore (some sampleBooking) ⟨none, some "b1"⟩ [emptyCodeRow] "" "t1" =
      ⟨.error .invalidCode, [emptyCodeRow], ⟨none, some "b1"⟩⟩ :=
  ⟨rfl, rfl⟩

/-- C4: both phases of two racing confirmBooking calls evaluated explicitly.  Both
check phases run against the same store holding the pending record and both proceed;
the first commit confirms the record; the second commit, applied to the store in which
the record is already confirmed, still matches it (the update is keyed by id only, with
no condition on the previous status) and reports success instead of the invalid-state
error — both racing calls succeed and the loser silently overwrites updated_at. -/
theorem claim4_race_both_succeed :
    finalizeChecks (some sampleBooking) ⟨some "482913", some "b1"⟩ [pendingRow] "482913"
      = .proceed "b1" ∧
    finalizeCommit [pendingRow] "b1" "482913" "t1"
      = ([confirmedRowT1], .ok confirmedRowT1) ∧
    confirmedRowT1.status = "confirmed" ∧
    finalizeCommit [confirmedRowT1] "b1" "482913" "t2"
      = ([confirmedRowT2], .ok confirmedRowT2) ∧
    isInvalidStateResult (finalizeCommit [confirmedRowT1] "b1" "482913" "t2").2 = false :=
  ⟨rfl, rfl, rfl, rfl, rfl⟩

/-- C6: the administrator approve path generates a code but performs no database write
at all: for every store, booking id and random draw the store is returned unchanged; in
particular the pending sample record keeps confirmation_code null and status 'pending'
while the freshly generated code (550000 for r = 1/2) is only dispatched via webhook. -/
theorem claim6_admin_code_not_persisted :
    (∀ (db : List BookingRow) (bookingId : String) (r : ℚ),
       (handleConfirmBooking db bookingId r).1 = db) ∧
    (handleConfirmBooking [pendingRow] "b1" (1/2)).1 = [pendingRow] ∧
    (handleConfirmBooking [pendingRow] "b1" (1/2)).2 =
      some (generateConfirmationCode (1/2)) ∧
    generateCodeInt (1/2) = 550000 ∧
    fetchById (handleConfirmBooking [pendingRow] "b1" (1/2)).1 "b1" = some pendingRow ∧
    pendingRow.confirmation_code = none ∧
    pendingRow.status = "pending" := by
  refine ⟨?_, rfl, rfl, by norm_num [generateCodeInt], rfl, rfl, rfl⟩
  intro db bookingId r
  cases h : fetchById db bookingId <;> simp [handleConfirmBooking, h]

/-- C5 (amended): rejectBooking on a pending record yields status 'rejected', and any
subsequent confirmBooking on the rejected record fails with the invalid-state error
without touching it; confirmBooking never modifies a fetched non-pending record
(whatever its terminal status); but because the reject update is keyed by id only (the
admin UI merely hides the action for non-pending rows), a non-pending record is not
immutable to rejection: rejectBooking also moves a confirmed record to 'rejected'. -/
theorem claim5_lifecycle :
    (∀ (db : List BookingRow) (bookingId : String) (row : BookingRow),
       fetchById db bookingId = some row →
       row.status = "pending" →
       fetchById (handleRejectBooking db bookingId) bookingId = some (rejectPatch row) ∧
       (rejectPatch row).status = "rejected") ∧
    (∀ (b : BookingData) (s : SessionStorage) (db : List BookingRow)
       (code now bookingId : String) (row : BookingRow),
       s.currentBookingId = some bookingId →
       fetchById db bookingId = some row →
       row.status ≠ "pending" →
       finalizeBookingCore (some b) s db code now =
         ⟨.error (.invalidState row.status), db, s⟩) ∧
    (∀ (db : List BookingRow) (bookingId : String) (row : BookingRow),
       fetchById db bookingId = some row →
       row.status = "confirmed" →
       fetchById (handleRejectBooking db bookingId) bookingId = some (rejectPatch row) ∧
       (rejectPatch row).status = "rejected") := by
  refine ⟨?_, ?_, ?_⟩
  · intro db bookingId row hfetch _
    exact ⟨fetchById_updateWhereId db bookingId rejectPatch (fun _ => rfl) row hfetch, rfl⟩
  · intro b s db code now bookingId row hid hfetch hstatus
    exact core_invalid_state b s db code now bookingId row hid hfetch hstatus
  · intro db bookingId row hfetch _
    exact ⟨fetchById_updateWhereId db bookingId rejectPatch (fun _ => rfl) row hfetch, rfl⟩

/-- Witness for C5: the pending sample record is rejected; a confirmation attempt on
the rejected record fails with the invalid-state error, and likewise on a cancelled
record; and the confirmed sample record is also moved to 'rejected' by the unguarded
reject update. -/
theorem claim5_witness :
    (fetchById (handleRejectBooking [pendingRow] "b1") "b1" = some (rejectPatch pendingRow) ∧
     (rejectPatch pendingRow).status = "rejected") ∧
    finalizeBookingCore (some sampleBooking) ⟨some "482913", some "b1"⟩
        [rejectPatch pendingRow] "482913" "t1" =
      ⟨.error (.invalidState "rejected"), [rejectPatch pendingRow],
       ⟨some "482913", some "b1"⟩⟩ ∧
    finalizeBookingCore (some sampleBooking) ⟨some "482913", some "b1"⟩
        [cancelledRow] "482913" "t1" =
      ⟨.error (.invalidState "cancelled"), [cancelledRow],
       ⟨some "482913", some "b1"⟩⟩ ∧
    (fetchById (handleRejectBooking [confirmedRow] "b1") "b1" =
        some (rejectPatch confirmedRow) ∧
     (rejectPatch confirmedRow).status = "rejected") :=
  ⟨claim5_lifecycle.1 [pendingRow] "b1" pendingRow rfl rfl,
   claim5_lifecycle.2.1 sampleBooking ⟨some "482913", some "b1"⟩ [rejectPatch pendingRow]
     "482913" "t1" "b1" (rejectPatch pendingRow) rfl rfl (by decide),
   claim5_lifecycle.2.1 sampleBooking ⟨some "482913", some "b1"⟩ [cancelledRow]
     "482913" "t1" "b1" cancelledRow rfl rfl (by decide),
   claim5_lifecycle.2.2 [confirmedRow] "b1" confirmedRow rfl rfl⟩

/-- Counterexample to C5 as stated: a confirmed (terminal, supposedly immutable) record
is transitioned to 'rejected' by rejectBooking, a transition the claimed invariant
forbids. -/
theorem claim5_counterexample :
    confirmedRow.status = "confirmed" ∧
    fetchById (handleRejectBooking [confirmedRow] "b1") "b1" =
      some { confirmedRow with status := "rejected" } ∧
    (handleRejectBooking [confirmedRow] "b1") =
      [{ confirmedRow with status := "rejected" }] :=
  ⟨rfl, rfl, rfl⟩
